import Mathlib

/-!
Shallow embedding of the sentinelfs-poc core: the signal scoring and
alerting engine (`src/scoring.py`), the scenario shock applier embedded in
`app.py` (`screen_drilldown`), and the action store (`src/db.py`).

Modelling conventions:
* pandas float cells are modelled as `Option ℚ`: `none` is the missing
  marker (NaN, or the result of `pd.to_numeric(..., errors="coerce")` on an
  unparseable value); `some v` is a present numeric value.  Python/numpy
  comparisons against NaN are `False`, arithmetic on NaN yields NaN, and
  `Series.clip` leaves NaN in place — the `Num` helpers below reproduce
  exactly that.
* `pd.to_datetime(col).dt.date` is the identity on already-date-valued
  cells, so `date` is modelled as an opaque `Int` and the coercion as the
  identity.
* A DataFrame is a list of rows plus one frame-level fact the code
  branches on: whether the `composite_risk_score` column is present.
* `sort_values` with a key list uses numpy's stable lexsort with NaN
  placed last for every key (`na_position="last"`); any stable sort with
  the same total preorder produces the same list, so it is modelled with
  `List.insertionSort` (stable) over that preorder.
* SQLite `AUTOINCREMENT` never reuses ids; the store carries the next id.
  `created_at` timestamps are external inputs threaded in as arguments.
-/

namespace SentinelFS

/-- A pandas numeric cell: `none` is the NaN missing marker. -/
abbrev Num := Option ℚ

/-- Model of `Series.clip(lo, hi)`: clamp present values, leave NaN alone. -/
def clipN (lo hi : ℚ) (x : Num) : Num :=
  x.map fun v => max lo (min v hi)

/-- Python `x < c` where `x` may be NaN (NaN comparisons are `False`). -/
def pylt (x : Num) (c : ℚ) : Bool :=
  match x with
  | some v => decide (v < c)
  | none => false

/-- Python `x >= c` where `x` may be NaN (NaN comparisons are `False`). -/
def pyge (x : Num) (c : ℚ) : Bool :=
  match x with
  | some v => decide (c ≤ v)
  | none => false

/-- Model of `Series.abs`: NaN maps to NaN. -/
def pyabs (x : Num) : Num :=
  x.map fun v => |v|

/-- Scalar addition `series + c`: NaN propagates. -/
def addN (x : Num) (c : ℚ) : Num :=
  x.map fun v => v + c

/-- One observation row (one record of the signals DataFrame), with the
numeric columns already coerced as described in the header comment. -/
@[ext]
structure Row where
  commodity : String
  market : String
  date : Int
  price : Num
  chg_7d : Num
  chg_30d : Num
  supply_risk_score : Num
  logistics_risk_score : Num
  climate_risk_score : Num
  geopolitical_risk_score : Num
  composite_risk_score : Num
  main_driver : Option String
  confidence : Num
deriving DecidableEq, Repr

/-- The signals DataFrame: rows plus whether the `composite_risk_score`
column exists (the code's `"composite_risk_score" not in out.columns`). -/
@[ext]
structure Frame where
  rows : List Row
  hasComposite : Bool
deriving DecidableEq, Repr

/-- The weighted sum of `compute_composite`: `0.35*supply + 0.25*logistics + 0.20*climate +
0.20*geopolitical`, with NaN propagating through the float arithmetic. -/
def compute_composite (r : Row) : Num :=
  match r.supply_risk_score, r.logistics_risk_score,
        r.climate_risk_score, r.geopolitical_risk_score with
  | some s, some l, some c, some g =>
      some (35/100 * s + 25/100 * l + 20/100 * c + 20/100 * g)
  | _, _, _, _ => none

/-- One step of pandas `idxmax(axis=1)` over the driver columns: keep the
position of the running maximum, a later column replaces it only when
strictly greater (so the first column attaining the maximum wins), NaN
entries skipped. -/
def bestIdx (acc : Option (Nat × ℚ)) (cand : Nat × Num) :
    Option (Nat × ℚ) :=
  match cand.2 with
  | none => acc
  | some v =>
    match acc with
    | none => some (cand.1, v)
    | some (i, b) => if b < v then some (cand.1, v) else some (i, b)

/-- The `mapping` dictionary of `compute_main_driver`, composed with the
declared `DRIVERS` column order: column position → display name. -/
def driverName : Nat → Option String
  | 0 => some "Supply"
  | 1 => some "Logistics"
  | 2 => some "Climate"
  | 3 => some "Geopolitical"
  | _ => none

/-- Pandas `df[DRIVERS].idxmax(axis=1)` of `compute_main_driver` (the label of the
first column attaining the row maximum, NaN skipped, an all-NaN row gives
the NaN marker) mapped through the column→name dictionary. -/
def compute_main_driver (r : Row) : Option String :=
  (List.foldl bestIdx none
    [(0, r.supply_risk_score), (1, r.logistics_risk_score),
     (2, r.climate_risk_score), (3, r.geopolitical_risk_score)]).bind
    fun p => driverName p.1

/-- Severity banding `severity_from_composite`: the if-chain of `scoring.py`; on NaN every
comparison is `False`, so it falls through to `"Critical"`. -/
def severity_from_composite (composite : Num) : String :=
  if pylt composite 50 then "Low"
  else if pylt composite 70 then "Medium"
  else if pylt composite 85 then "High"
  else "Critical"

/-- An alert row: the observation plus the columns `generate_alerts`
adds before filtering. -/
structure Alert where
  row : Row
  severity : String
  triggered : Bool
  trigger_reason : String
deriving DecidableEq, Repr

/-- The per-row column assignments of `generate_alerts` (severity,
trigger flags, reason string). -/
def annotateRow (r : Row) : Alert :=
  let trigger_risk := pyge r.composite_risk_score 70
  let trigger_price := pyge (pyabs r.chg_7d) 10
  { row := r
    severity := severity_from_composite r.composite_risk_score
    triggered := trigger_risk || trigger_price
    trigger_reason :=
      if trigger_risk && trigger_price then "Composite >= 70 AND |7D change| >= 10"
      else if trigger_risk then "Composite >= 70"
      else if trigger_price then "|7D change| >= 10"
      else "" }

/-- Secondary sort key `chg_7d` descending, NaN last
(`na_position="last"`). -/
def chgDesc (x y : Num) : Bool :=
  match x, y with
  | some v, some w => decide (w ≤ v)
  | some _, none => true
  | none, some _ => false
  | none, none => true

/-- The preorder of `sort_values(["composite_risk_score", "chg_7d"],
ascending=[False, False])`: composite descending with NaN last, ties by
`chg_7d` descending with NaN last. -/
def alertRank (a b : Alert) : Bool :=
  match a.row.composite_risk_score, b.row.composite_risk_score with
  | some v, some w =>
      if w < v then true
      else if v < w then false
      else chgDesc a.row.chg_7d b.row.chg_7d
  | some _, none => true
  | none, some _ => false
  | none, none => chgDesc a.row.chg_7d b.row.chg_7d

/-- Alert generation `generate_alerts`: annotate every row, keep the triggered ones (in
order), stable-sort by the ranking keys. -/
def generate_alerts (signals : List Row) : List Alert :=
  List.insertionSort (fun a b => alertRank a b = true)
    ((signals.map annotateRow).filter fun a => a.triggered)

/-- The composite-repair step of `normalize_signals`: derive the value
when the column is absent or the cell is NaN, otherwise keep the supplied
value. -/
def repairComposite (hasComposite : Bool) (r : Row) : Num :=
  if hasComposite then
    match r.composite_risk_score with
    | some c => some c
    | none => compute_composite r
  else compute_composite r

/-- The per-row effect of `normalize_signals`: numeric coercion (the
identity on our representation), composite repair, unconditional
`main_driver` recomputation from the pre-clamp scores, then clamping of
the bounded fields. -/
def normalizeRow (hasComposite : Bool) (r : Row) : Row :=
  let composite := repairComposite hasComposite r
  { r with
    supply_risk_score := clipN 0 100 r.supply_risk_score
    logistics_risk_score := clipN 0 100 r.logistics_risk_score
    climate_risk_score := clipN 0 100 r.climate_risk_score
    geopolitical_risk_score := clipN 0 100 r.geopolitical_risk_score
    composite_risk_score := clipN 0 100 composite
    main_driver := compute_main_driver r
    confidence := clipN 0 1 r.confidence }

/-- Batch normalization `normalize_signals`: rowwise normalization; the output always has the
composite column. -/
def normalize_signals (df : Frame) : Frame :=
  ⟨df.rows.map (normalizeRow df.hasComposite), true⟩

/-- The masked mutation of the shock button in `screen_drilldown`
(`app.py`): rows of the chosen commodity get `logistics += 20` and
`geopolitical += 15` (each clipped immediately) and `chg_7d += 8`;
other rows are untouched. -/
def shockRow (commodity : String) (r : Row) : Row :=
  if r.commodity = commodity then
    { r with
      logistics_risk_score := clipN 0 100 (addN r.logistics_risk_score 20)
      geopolitical_risk_score := clipN 0 100 (addN r.geopolitical_risk_score 15)
      chg_7d := addN r.chg_7d 8 }
  else r

/-- The shock simulation: mutate a copy, then
`shock_df = normalize_signals(shock_df)`. -/
def apply_shock (df : Frame) (commodity : String) : Frame :=
  normalize_signals ⟨df.rows.map (shockRow commodity), df.hasComposite⟩

/-- One row of the `actions` table (`src/db.py`). -/
structure Action where
  id : Nat
  title : String
  owner : String
  due_date : String
  status : String
  notes : String
  expected_risk_impact : String
  commodity : String
  created_at : String
deriving DecidableEq, Repr

/-- The durable store: the `actions` table plus the `AUTOINCREMENT`
counter (SQLite never reuses an id). -/
@[ext]
structure Store where
  actions : List Action
  nextId : Nat
deriving DecidableEq, Repr

/-- Insertion `add_action`: INSERT with a fresh sequential id and the supplied
`created_at` timestamp; returns the new state and the assigned id. -/
def add_action (s : Store) (title owner due_date status notes
    expected_risk_impact commodity created_at : String) : Store × Nat :=
  (⟨s.actions ++
      [⟨s.nextId, title, owner, due_date, status, notes,
        expected_risk_impact, commodity, created_at⟩],
    s.nextId + 1⟩, s.nextId)

/-- The preorder of `ORDER BY due_date ASC, id DESC` (SQLite BINARY text
collation agrees with `String` order on these ASCII dates). -/
def actionRank (a b : Action) : Bool :=
  if a.due_date < b.due_date then true
  else if b.due_date < a.due_date then false
  else decide (b.id ≤ a.id)

/-- Listing `list_actions`: SELECT ordered by due date ascending, id descending. -/
def list_actions (s : Store) : List Action :=
  List.insertionSort (fun a b => actionRank a b = true) s.actions

/-- Update `update_action`: UPDATE of the two mutable fields WHERE id matches
(zero rows affected when absent). -/
def update_action (s : Store) (action_id : Nat) (status notes : String) :
    Store :=
  ⟨s.actions.map fun a =>
      if a.id = action_id then { a with status := status, notes := notes }
      else a,
    s.nextId⟩

/-- Deletion `delete_action`: DELETE WHERE id matches (zero rows affected when
absent). -/
def delete_action (s : Store) (action_id : Nat) : Store :=
  ⟨s.actions.filter fun a => a.id ≠ action_id, s.nextId⟩

/-! ### Spec-side vocabulary -/

/-- A cell is within `[lo, hi]` whenever it is present (the missing
marker carries no bound). -/
def inBounds (lo hi : ℚ) : Num → Prop
  | none => True
  | some v => lo ≤ v ∧ v ≤ hi

instance (lo hi : ℚ) (x : Num) : Decidable (inBounds lo hi x) :=
  match x with
  | none => isTrue trivial
  | some _ => instDecidableAnd

/-- All four driver scores of a row are present-in-`[0,100]` or missing. -/
def driversInRange (r : Row) : Prop :=
  inBounds 0 100 r.supply_risk_score ∧ inBounds 0 100 r.logistics_risk_score ∧
    inBounds 0 100 r.climate_risk_score ∧ inBounds 0 100 r.geopolitical_risk_score

instance (r : Row) : Decidable (driversInRange r) := by
  unfold driversInRange; infer_instance

/-- Dominance: `x` is a present score at least as large as every present score in
`others`. -/
def dominates (x : Num) (others : List Num) : Bool :=
  match x with
  | none => false
  | some v =>
    others.all fun w =>
      match w with
      | none => true
      | some u => decide (u ≤ v)

/-- The spec's wording for `main_driver`: the name of the driver whose
score is maximal, ties broken by the declared priority order
Supply > Logistics > Climate > Geopolitical (NaN scores never win). -/
def specMainDriver (s l c g : Num) : Option String :=
  if dominates s [l, c, g] then some "Supply"
  else if dominates l [s, c, g] then some "Logistics"
  else if dominates c [s, l, g] then some "Climate"
  else if dominates g [s, l, c] then some "Geopolitical"
  else none

/-- The spec's severity banding of a (present) composite score. -/
def bandSpec (c : ℚ) : String :=
  if c < 50 then "Low"
  else if c < 70 then "Medium"
  else if c < 85 then "High"
  else "Critical"

/-! ### Clip lemmas -/

theorem clipN_none (lo hi : ℚ) : clipN lo hi none = none := rfl

theorem clipN_some (lo hi v : ℚ) :
    clipN lo hi (some v) = some (max lo (min v hi)) := rfl

theorem inBounds_clipN (lo hi : ℚ) (h : lo ≤ hi) (x : Num) :
    inBounds lo hi (clipN lo hi x) := by
  cases x with
  | none => trivial
  | some v =>
    exact ⟨le_max_left _ _, max_le h (min_le_right _ _)⟩

theorem clipN_eq_self {lo hi : ℚ} {x : Num} (h : inBounds lo hi x) :
    clipN lo hi x = x := by
  cases x with
  | none => rfl
  | some v =>
    obtain ⟨h1, h2⟩ := h
    simp [clipN, min_eq_left h2, max_eq_right h1]

theorem clipN_idem (lo hi : ℚ) (h : lo ≤ hi) (x : Num) :
    clipN lo hi (clipN lo hi x) = clipN lo hi x :=
  clipN_eq_self (inBounds_clipN lo hi h x)

/-! ### Congruence of the derived columns in the driver fields -/

theorem compute_composite_congr {r s : Row}
    (h1 : r.supply_risk_score = s.supply_risk_score)
    (h2 : r.logistics_risk_score = s.logistics_risk_score)
    (h3 : r.climate_risk_score = s.climate_risk_score)
    (h4 : r.geopolitical_risk_score = s.geopolitical_risk_score) :
    compute_composite r = compute_composite s := by
  unfold compute_composite
  rw [h1, h2, h3, h4]

theorem compute_main_driver_congr {r s : Row}
    (h1 : r.supply_risk_score = s.supply_risk_score)
    (h2 : r.logistics_risk_score = s.logistics_risk_score)
    (h3 : r.climate_risk_score = s.climate_risk_score)
    (h4 : r.geopolitical_risk_score = s.geopolitical_risk_score) :
    compute_main_driver r = compute_main_driver s := by
  unfold compute_main_driver
  rw [h1, h2, h3, h4]

/-- The source's fold (pandas `idxmax`, first maximum wins) computes the
spec's maximal-score driver with the declared priority tie-break. -/
theorem compute_main_driver_eq_spec (r : Row) :
    compute_main_driver r =
      specMainDriver r.supply_risk_score r.logistics_risk_score
        r.climate_risk_score r.geopolitical_risk_score := by
  rcases r with ⟨_, _, _, _, _, _, s, l, c, g, _, _, _⟩
  simp only [compute_main_driver, specMainDriver, List.foldl]
  rcases s with _ | s <;> rcases l with _ | l <;> rcases c with _ | c <;>
      rcases g with _ | g
  -- none present
  · rfl
  -- only geopolitical
  · simp [bestIdx, dominates, driverName, Option.bind]
  -- only climate
  · simp [bestIdx, dominates, driverName, Option.bind]
  -- climate, geopolitical
  · by_cases h : c < g
    · simp [bestIdx, dominates, driverName, Option.bind, h, not_le.2 h, h.le]
    · simp [bestIdx, dominates, driverName, Option.bind, h, le_of_not_lt h]
  -- only logistics
  · simp [bestIdx, dominates, driverName, Option.bind]
  -- logistics, geopolitical
  · by_cases h : l < g
    · simp [bestIdx, dominates, driverName, Option.bind, h, not_le.2 h, h.le]
    · simp [bestIdx, dominates, driverName, Option.bind, h, le_of_not_lt h]
  -- logistics, climate
  · by_cases h : l < c
    · simp [bestIdx, dominates, driverName, Option.bind, h, not_le.2 h, h.le]
    · simp [bestIdx, dominates, driverName, Option.bind, h, le_of_not_lt h]
  -- logistics, climate, geopolitical
  · by_cases h1 : l < c
    · by_cases h2 : c < g
      · simp [bestIdx, dominates, driverName, Option.bind, h1, h2, not_le.2 h1,
          not_le.2 h2, not_le.2 (h1.trans h2), h2.le, (h1.trans h2).le]
      · simp [bestIdx, dominates, driverName, Option.bind, h1, h2, not_le.2 h1,
          h1.le, le_of_not_lt h2]
    · by_cases h2 : l < g
      · simp [bestIdx, dominates, driverName, Option.bind, h1, h2, not_le.2 h2,
          not_le.2 (lt_of_le_of_lt (le_of_not_lt h1) h2), h2.le,
          (lt_of_le_of_lt (le_of_not_lt h1) h2).le]
      · simp [bestIdx, dominates, driverName, Option.bind, h1, h2,
          le_of_not_lt h1, le_of_not_lt h2]
  -- only supply
  · simp [bestIdx, dominates, driverName, Option.bind]
  -- supply, geopolitical
  · by_cases h : s < g
    · simp [bestIdx, dominates, driverName, Option.bind, h, not_le.2 h, h.le]
    · simp [bestIdx, dominates, driverName, Option.bind, h, le_of_not_lt h]
  -- supply, climate
  · by_cases h : s < c
    · simp [bestIdx, dominates, driverName, Option.bind, h, not_le.2 h, h.le]
    · simp [bestIdx, dominates, driverName, Option.bind, h, le_of_not_lt h]
  -- supply, climate, geopolitical
  · by_cases h1 : s < c
    · by_cases h2 : c < g
      · simp [bestIdx, dominates, driverName, Option.bind, h1, h2, not_le.2 h1,
          not_le.2 h2, not_le.2 (h1.trans h2), h2.le, (h1.trans h2).le]
      · simp [bestIdx, dominates, driverName, Option.bind, h1, h2, not_le.2 h1,
          h1.le, le_of_not_lt h2]
    · by_cases h2 : s < g
      · simp [bestIdx, dominates, driverName, Option.bind, h1, h2, not_le.2 h2,
          not_le.2 (lt_of_le_of_lt (le_of_not_lt h1) h2), h2.le,
          (lt_of_le_of_lt (le_of_not_lt h1) h2).le]
      · simp [bestIdx, dominates, driverName, Option.bind, h1, h2,
          le_of_not_lt h1, le_of_not_lt h2]
  -- supply, logistics
  · by_cases h : s < l
    · simp [bestIdx, dominates, driverName, Option.bind, h, not_le.2 h, h.le]
    · simp [bestIdx, dominates, driverName, Option.bind, h, le_of_not_lt h]
  -- supply, logistics, geopolitical
  · by_cases h1 : s < l
    · by_cases h2 : l < g
      · simp [bestIdx, dominates, driverName, Option.bind, h1, h2, not_le.2 h1,
          not_le.2 h2, not_le.2 (h1.trans h2), h2.le, (h1.trans h2).le]
      · simp [bestIdx, dominates, driverName, Option.bind, h1, h2, not_le.2 h1,
          h1.le, le_of_not_lt h2]
    · by_cases h2 : s < g
      · simp [bestIdx, dominates, driverName, Option.bind, h1, h2, not_le.2 h2,
          not_le.2 (lt_of_le_of_lt (le_of_not_lt h1) h2), h2.le,
          (lt_of_le_of_lt (le_of_not_lt h1) h2).le]
      · simp [bestIdx, dominates, driverName, Option.bind, h1, h2,
          le_of_not_lt h1, le_of_not_lt h2]
  -- supply, logistics, climate
  · by_cases h1 : s < l
    · by_cases h2 : l < c
      · simp [bestIdx, dominates, driverName, Option.bind, h1, h2, not_le.2 h1,
          not_le.2 h2, not_le.2 (h1.trans h2), h2.le, (h1.trans h2).le]
      · simp [bestIdx, dominates, driverName, Option.bind, h1, h2, not_le.2 h1,
          h1.le, le_of_not_lt h2]
    · by_cases h2 : s < c
      · simp [bestIdx, dominates, driverName, Option.bind, h1, h2, not_le.2 h2,
          not_le.2 (lt_of_le_of_lt (le_of_not_lt h1) h2), h2.le,
          (lt_of_le_of_lt (le_of_not_lt h1) h2).le]
      · simp [bestIdx, dominates, driverName, Option.bind, h1, h2,
          le_of_not_lt h1, le_of_not_lt h2]
  -- all four present
  · by_cases h1 : s < l
    · by_cases h2 : l < c
      · by_cases h3 : c < g
        · simp [bestIdx, dominates, driverName, Option.bind, h1, h2, h3,
            not_le.2 h1, not_le.2 h2, not_le.2 h3, h3.le, (h2.trans h3).le,
            (h1.trans (h2.trans h3)).le]
        · simp [bestIdx, dominates, driverName, Option.bind, h1, h2, h3,
            not_le.2 h1, not_le.2 h2, h2.le, (h1.trans h2).le, le_of_not_lt h3]
      · by_cases h3 : l < g
        · simp [bestIdx, dominates, driverName, Option.bind, h1, h2, h3,
            not_le.2 h1, not_le.2 h3,
            not_le.2 (lt_of_le_of_lt (le_of_not_lt h2) h3), h3.le,
            (h1.trans h3).le, (lt_of_le_of_lt (le_of_not_lt h2) h3).le]
        · simp [bestIdx, dominates, driverName, Option.bind, h1, h2, h3,
            not_le.2 h1, h1.le, le_of_not_lt h2, le_of_not_lt h3]
    · by_cases h2 : s < c
      · by_cases h3 : c < g
        · simp [bestIdx, dominates, driverName, Option.bind, h1, h2, h3,
            not_le.2 h2, not_le.2 h3,
            not_le.2 (lt_of_le_of_lt (le_of_not_lt h1) h2), h3.le,
            (h2.trans h3).le, ((le_of_not_lt h1).trans (h2.trans h3).le)]
        · simp [bestIdx, dominates, driverName, Option.bind, h1, h2, h3,
            not_le.2 h2, not_le.2 (lt_of_le_of_lt (le_of_not_lt h1) h2),
            h2.le, ((le_of_not_lt h1).trans h2.le), le_of_not_lt h3]
      · by_cases h3 : s < g
        · simp [bestIdx, dominates, driverName, Option.bind, h1, h2, h3,
            not_le.2 h3, not_le.2 (lt_of_le_of_lt (le_of_not_lt h1) h3),
            not_le.2 (lt_of_le_of_lt (le_of_not_lt h2) h3), h3.le,
            ((le_of_not_lt h1).trans h3.le), ((le_of_not_lt h2).trans h3.le)]
        · simp [bestIdx, dominates, driverName, Option.bind, h1, h2, h3,
            le_of_not_lt h1, le_of_not_lt h2, le_of_not_lt h3]

/-! ### Normalization lemmas -/

@[simp]
theorem normalizeRow_commodity (hc : Bool) (r : Row) :
    (normalizeRow hc r).commodity = r.commodity := rfl

@[simp]
theorem normalizeRow_market (hc : Bool) (r : Row) :
    (normalizeRow hc r).market = r.market := rfl

@[simp]
theorem normalizeRow_date (hc : Bool) (r : Row) :
    (normalizeRow hc r).date = r.date := rfl

@[simp]
theorem normalizeRow_price (hc : Bool) (r : Row) :
    (normalizeRow hc r).price = r.price := rfl

@[simp]
theorem normalizeRow_chg_7d (hc : Bool) (r : Row) :
    (normalizeRow hc r).chg_7d = r.chg_7d := rfl

@[simp]
theorem normalizeRow_chg_30d (hc : Bool) (r : Row) :
    (normalizeRow hc r).chg_30d = r.chg_30d := rfl

@[simp]
theorem normalizeRow_supply (hc : Bool) (r : Row) :
    (normalizeRow hc r).supply_risk_score = clipN 0 100 r.supply_risk_score := rfl

@[simp]
theorem normalizeRow_logistics (hc : Bool) (r : Row) :
    (normalizeRow hc r).logistics_risk_score = clipN 0 100 r.logistics_risk_score := rfl

@[simp]
theorem normalizeRow_climate (hc : Bool) (r : Row) :
    (normalizeRow hc r).climate_risk_score = clipN 0 100 r.climate_risk_score := rfl

@[simp]
theorem normalizeRow_geopolitical (hc : Bool) (r : Row) :
    (normalizeRow hc r).geopolitical_risk_score =
      clipN 0 100 r.geopolitical_risk_score := rfl

@[simp]
theorem normalizeRow_composite (hc : Bool) (r : Row) :
    (normalizeRow hc r).composite_risk_score =
      clipN 0 100 (repairComposite hc r) := rfl

@[simp]
theorem normalizeRow_main_driver (hc : Bool) (r : Row) :
    (normalizeRow hc r).main_driver = compute_main_driver r := rfl

@[simp]
theorem normalizeRow_confidence (hc : Bool) (r : Row) :
    (normalizeRow hc r).confidence = clipN 0 1 r.confidence := rfl

/-- A repaired composite is missing only when derivation fails too. -/
theorem compute_composite_eq_none_of_repair {hc : Bool} {r : Row}
    (h : repairComposite hc r = none) : compute_composite r = none := by
  unfold repairComposite at h
  cases hc with
  | false => exact h
  | true =>
    cases hr : r.composite_risk_score with
    | none => rw [hr] at h; exact h
    | some c => rw [hr] at h; exact absurd h (by simp)

/-- Driver scores of a normalized row are in range or missing. -/
theorem driversInRange_normalizeRow (hc : Bool) (r : Row) :
    driversInRange (normalizeRow hc r) := by
  refine ⟨?_, ?_, ?_, ?_⟩ <;>
    simp only [normalizeRow_supply, normalizeRow_logistics, normalizeRow_climate,
      normalizeRow_geopolitical] <;>
    exact inBounds_clipN 0 100 (by norm_num) _

/-- Rows whose driver scores are already within bounds are fixed points of
a second normalization pass: only `main_driver` could ever differ, and with
in-range drivers clamping does not move the scores it is computed from. -/
theorem normalizeRow_idem (hc : Bool) (r : Row) (h : driversInRange r) :
    normalizeRow true (normalizeRow hc r) = normalizeRow hc r := by
  obtain ⟨h1, h2, h3, h4⟩ := h
  have e1 := clipN_eq_self h1
  have e2 := clipN_eq_self h2
  have e3 := clipN_eq_self h3
  have e4 := clipN_eq_self h4
  have ecc : compute_composite (normalizeRow hc r) = compute_composite r :=
    compute_composite_congr (by simp [e1]) (by simp [e2]) (by simp [e3]) (by simp [e4])
  have ecm : compute_main_driver (normalizeRow hc r) = compute_main_driver r :=
    compute_main_driver_congr (by simp [e1]) (by simp [e2]) (by simp [e3]) (by simp [e4])
  have ecomp : clipN 0 100 (repairComposite true (normalizeRow hc r)) =
      clipN 0 100 (repairComposite hc r) := by
    cases hrc : repairComposite hc r with
    | none =>
      have hv : (normalizeRow hc r).composite_risk_score = none := by
        rw [normalizeRow_composite, hrc, clipN_none]
      simp only [repairComposite, hv, eq_self_iff_true, if_true, ecc,
        compute_composite_eq_none_of_repair hrc]
    | some v =>
      have hv : (normalizeRow hc r).composite_risk_score = some (max 0 (min v 100)) := by
        rw [normalizeRow_composite, hrc, clipN_some]
      simp only [repairComposite, hv, eq_self_iff_true, if_true]
      rw [← clipN_some 0 100 v, clipN_idem 0 100 (by norm_num)]
  refine Row.ext ?_ ?_ ?_ ?_ ?_ ?_ ?_ ?_ ?_ ?_ ?_ ?_ ?_
  · rfl
  · rfl
  · rfl
  · rfl
  · rfl
  · rfl
  · simp only [normalizeRow_supply]; rw [e1, e1]
  · simp only [normalizeRow_logistics]; rw [e2, e2]
  · simp only [normalizeRow_climate]; rw [e3, e3]
  · simp only [normalizeRow_geopolitical]; rw [e4, e4]
  · simp only [normalizeRow_composite]; exact ecomp
  · simp only [normalizeRow_main_driver]; exact ecm
  · simp only [normalizeRow_confidence]
    exact clipN_idem 0 1 (by norm_num) _

/-- The input `main_driver` column has no influence on normalization. -/
theorem normalizeRow_ignores_main_driver (hc : Bool) (r : Row) (m : Option String) :
    normalizeRow hc { r with main_driver := m } = normalizeRow hc r := rfl

/-- Normalization is idempotent on frames whose rows carry in-range (or
missing) driver scores. -/
theorem normalize_signals_idem (df : Frame)
    (h : ∀ r ∈ df.rows, driversInRange r) :
    normalize_signals (normalize_signals df) = normalize_signals df := by
  unfold normalize_signals
  refine Frame.ext ?_ rfl
  simp only [List.map_map]
  exact List.map_congr_left fun a ha =>
    normalizeRow_idem df.hasComposite a (h a ha)

/-! ### Ranking relations: totality and transitivity -/

theorem chgDesc_total (x y : Num) : chgDesc x y = true ∨ chgDesc y x = true := by
  rcases x with _ | v <;> rcases y with _ | w <;> simp [chgDesc]
  exact le_total w v

theorem chgDesc_trans {x y z : Num} (h1 : chgDesc x y = true)
    (h2 : chgDesc y z = true) : chgDesc x z = true := by
  rcases x with _ | v <;> rcases y with _ | w <;> rcases z with _ | u <;>
    simp_all [chgDesc]
  exact le_trans h2 h1

instance : IsTotal Alert (fun a b => alertRank a b = true) where
  total a b := by
    rcases ha : a.row.composite_risk_score with _ | v <;>
        rcases hb : b.row.composite_risk_score with _ | w <;>
      simp only [alertRank, ha, hb]
    · exact chgDesc_total _ _
    · simp
    · simp
    · rcases lt_trichotomy v w with h | h | h
      · right; simp [h]
      · subst h; simp only [lt_self_iff_false, if_false]
        exact chgDesc_total _ _
      · left; simp [h]

instance : IsTrans Alert (fun a b => alertRank a b = true) where
  trans a b c hab hbc := by
    rcases ha : a.row.composite_risk_score with _ | v <;>
        rcases hb : b.row.composite_risk_score with _ | w <;>
        rcases hc : c.row.composite_risk_score with _ | u <;>
      simp only [alertRank, ha, hb, hc] at hab hbc ⊢
    -- goals for the composite patterns that are not closed by reduction
    -- a, b, c composites: none none none
    · exact chgDesc_trans hab hbc
    -- none none some
    · exact absurd hbc (by simp)
    -- none some none
    · exact absurd hab (by simp)
    -- none some some
    · exact absurd hab (by simp)
    -- some none some
    · exact absurd hbc (by simp)
    -- some some some
    · rcases lt_trichotomy w v with h1 | h1 | h1
      · rcases lt_trichotomy u w with h2 | h2 | h2
        · simp [h2.trans h1]
        · subst h2; simp [h1]
        · rw [if_neg (lt_asymm h2), if_pos h2] at hbc
          exact absurd hbc (by simp)
      · subst h1
        simp only [lt_self_iff_false, if_false] at hab
        rcases lt_trichotomy u w with h2 | h2 | h2
        · simp [h2]
        · subst h2
          simp only [lt_self_iff_false, if_false] at hbc ⊢
          exact chgDesc_trans hab hbc
        · rw [if_neg (lt_asymm h2), if_pos h2] at hbc
          exact absurd hbc (by simp)
      · rw [if_neg (lt_asymm h1), if_pos h1] at hab
        exact absurd hab (by simp)

instance : IsTotal Action (fun a b => actionRank a b = true) where
  total a b := by
    unfold actionRank
    rcases lt_trichotomy a.due_date b.due_date with h | h | h
    · left; simp [h]
    · rw [h]
      simp only [lt_self_iff_false, if_false, decide_eq_true_eq]
      exact le_total b.id a.id
    · right; simp [h]

instance : IsTrans Action (fun a b => actionRank a b = true) where
  trans a b c hab hbc := by
    unfold actionRank at hab hbc ⊢
    rcases lt_trichotomy a.due_date b.due_date with h1 | h1 | h1
    · rcases lt_trichotomy b.due_date c.due_date with h2 | h2 | h2
      · simp [h1.trans h2]
      · rw [← h2]; simp [h1]
      · rw [if_neg (lt_asymm h2), if_pos h2] at hbc
        exact absurd hbc (by simp)
    · rw [h1] at hab
      simp only [lt_self_iff_false, if_false, decide_eq_true_eq] at hab
      rcases lt_trichotomy b.due_date c.due_date with h2 | h2 | h2
      · simp [h1, h2]
      · rw [h2] at hbc
        simp only [lt_self_iff_false, if_false, decide_eq_true_eq] at hbc
        rw [h1, h2]
        simp only [lt_self_iff_false, if_false, decide_eq_true_eq]
        exact le_trans hbc hab
      · rw [if_neg (lt_asymm h2), if_pos h2] at hbc
        exact absurd hbc (by simp)
    · rw [if_neg (lt_asymm h1), if_pos h1] at hab
      exact absurd hab (by simp)

/-! ### Concrete rows used in witnesses and counterexamples -/

/-- A consistent normalized observation for Wheat: composite
`0.25*60 + 0.20*60 = 27`. -/
def wheatRow : Row :=
  { commodity := "Wheat", market := "Doha", date := 0, price := some 100,
    chg_7d := some 5, chg_30d := some 2, supply_risk_score := some 0,
    logistics_risk_score := some 60, climate_risk_score := some 0,
    geopolitical_risk_score := some 60, composite_risk_score := some 27,
    main_driver := some "Logistics", confidence := some 1 }

/-- A row with out-of-range driver scores: logistics leads pre-clamp, but
clamping collapses supply and logistics to 100. -/
def riceRowWide : Row :=
  { commodity := "Rice", market := "Doha", date := 0, price := some 100,
    chg_7d := some 0, chg_30d := some 0, supply_risk_score := some 120,
    logistics_risk_score := some 150, climate_risk_score := some 0,
    geopolitical_risk_score := some 0, composite_risk_score := some 50,
    main_driver := none, confidence := some 1 }

/-- A high-composite row (alert via the composite trigger). -/
def hotRow : Row :=
  { commodity := "Barley", market := "Doha", date := 0, price := some 100,
    chg_7d := some 0, chg_30d := some 0, supply_risk_score := some 80,
    logistics_risk_score := some 80, climate_risk_score := some 80,
    geopolitical_risk_score := some 80, composite_risk_score := some 80,
    main_driver := none, confidence := some 1 }

/-- A row with missing composite but a strong 7-day move. -/
def nanRow : Row :=
  { commodity := "Maize", market := "Doha", date := 0, price := some 100,
    chg_7d := some 15, chg_30d := some 0, supply_risk_score := none,
    logistics_risk_score := none, climate_risk_score := none,
    geopolitical_risk_score := none, composite_risk_score := none,
    main_driver := none, confidence := some 1 }

/-! ### Alert lemmas -/

@[simp]
theorem annotateRow_row (r : Row) : (annotateRow r).row = r := rfl

@[simp]
theorem annotateRow_severity (r : Row) :
    (annotateRow r).severity = severity_from_composite r.composite_risk_score := rfl

@[simp]
theorem annotateRow_triggered (r : Row) :
    (annotateRow r).triggered =
      (pyge r.composite_risk_score 70 || pyge (pyabs r.chg_7d) 10) := rfl

theorem mem_generate_alerts (signals : List Row) (a : Alert) :
    a ∈ generate_alerts signals ↔
      a ∈ signals.map annotateRow ∧ a.triggered = true := by
  unfold generate_alerts
  rw [(List.perm_insertionSort _ _).mem_iff]
  exact List.mem_filter

theorem annotateRow_mem_map {r : Row} {signals : List Row} :
    annotateRow r ∈ signals.map annotateRow ↔ r ∈ signals := by
  constructor
  · intro hm
    obtain ⟨r0, hr0, he⟩ := List.mem_map.1 hm
    have hrr : r0 = r := congrArg Alert.row he
    exact hrr ▸ hr0
  · exact fun hr => List.mem_map_of_mem _ hr

/-- The spec's reason strings, as a function of which trigger fired
(only meaningful on triggered rows). -/
def reasonSpec (r : Row) : String :=
  if pyge r.composite_risk_score 70 && pyge (pyabs r.chg_7d) 10 then
    "Composite >= 70 AND |7D change| >= 10"
  else if pyge r.composite_risk_score 70 then "Composite >= 70"
  else "|7D change| >= 10"

/-- C5: a (normalized) row appears among the generated alerts iff its
composite is at least 70 or its 7-day change has absolute value at least
10 (NaN comparisons are false), and every emitted alert carries exactly
the reason string matching the fired condition(s); rows firing neither
produce no alert. -/
theorem generate_alerts_membership (signals : List Row) (r : Row) :
    (annotateRow r ∈ generate_alerts signals ↔
      r ∈ signals ∧
        (pyge r.composite_risk_score 70 = true ∨
          pyge (pyabs r.chg_7d) 10 = true)) ∧
    ∀ a ∈ generate_alerts signals,
      a.triggered = true ∧ a.trigger_reason = reasonSpec a.row := by
  constructor
  · rw [mem_generate_alerts, annotateRow_mem_map, annotateRow_triggered,
      Bool.or_eq_true]
  · intro a ha
    obtain ⟨ham, hat⟩ := (mem_generate_alerts signals a).1 ha
    obtain ⟨r0, _, rfl⟩ := List.mem_map.1 ham
    refine ⟨hat, ?_⟩
    unfold annotateRow reasonSpec
    cases hA : pyge r0.composite_risk_score 70 <;>
      cases hB : pyge (pyabs r0.chg_7d) 10 <;>
      simp_all [annotateRow]

/-- C5 witness: on a concrete two-row batch, the high-composite row is a
member of the alerts and carries the matching reason string. -/
theorem generate_alerts_membership_witness :
    (annotateRow hotRow).triggered = true ∧
    (annotateRow hotRow).trigger_reason = reasonSpec hotRow :=
  (generate_alerts_membership [wheatRow, hotRow] hotRow).2 (annotateRow hotRow)
    (((generate_alerts_membership [wheatRow, hotRow] hotRow).1).mpr
      ⟨by simp, Or.inl (by norm_num [hotRow, pyge])⟩)

/-- C6: severity is a total function of the composite score with bands
inclusive on the lower edge, including the spec's boundary scenarios. -/
theorem severity_bands :
    (∀ c : ℚ, severity_from_composite (some c) = bandSpec c) ∧
    severity_from_composite (some (499/10)) = "Low" ∧
    severity_from_composite (some 50) = "Medium" ∧
    severity_from_composite (some (699/10)) = "Medium" ∧
    severity_from_composite (some 70) = "High" ∧
    severity_from_composite (some (849/10)) = "High" ∧
    severity_from_composite (some 85) = "Critical" := by
  refine ⟨fun c => ?_, ?_, ?_, ?_, ?_, ?_, ?_⟩ <;>
    norm_num [severity_from_composite, bandSpec, pylt]

/-- C10: a row whose composite is the missing marker is classified
"Critical" (the if-chain falls through on NaN), and it is an alert iff
its 7-day change fires, since a NaN composite never satisfies the
composite trigger. -/
theorem missing_composite_alert (r : Row) (h : r.composite_risk_score = none) :
    (annotateRow r).severity = "Critical" ∧
    (annotateRow r).triggered = pyge (pyabs r.chg_7d) 10 ∧
    ∀ signals : List Row,
      (annotateRow r ∈ generate_alerts signals ↔
        r ∈ signals ∧ pyge (pyabs r.chg_7d) 10 = true) := by
  refine ⟨?_, ?_, fun signals => ?_⟩
  · rw [annotateRow_severity, h]; rfl
  · rw [annotateRow_triggered, h]; rfl
  · rw [mem_generate_alerts, annotateRow_mem_map, annotateRow_triggered, h,
      Bool.or_eq_true]
    simp [pyge]

/-- C10 witness: a concrete row with missing composite and a 15-point
7-day move is Critical and alerts on the price trigger. -/
theorem missing_composite_alert_witness :
    (annotateRow nanRow).severity = "Critical" ∧
    (annotateRow nanRow).triggered = pyge (pyabs nanRow.chg_7d) 10 ∧
    ∀ signals : List Row,
      (annotateRow nanRow ∈ generate_alerts signals ↔
        nanRow ∈ signals ∧ pyge (pyabs nanRow.chg_7d) 10 = true) :=
  missing_composite_alert nanRow rfl

/-- C2 (amended): normalization is a pure function and is idempotent on
every input whose driver scores are within [0,100] or missing; with
out-of-range driver scores a second pass can change `main_driver`,
because `main_driver` is computed from the pre-clamp scores. -/
theorem normalize_idempotent_on_inRange (df : Frame)
    (h : ∀ r ∈ df.rows, driversInRange r) :
    normalize_signals (normalize_signals df) = normalize_signals df :=
  normalize_signals_idem df h

/-- C2 witness: idempotence holds on a concrete in-range frame. -/
theorem normalize_idempotent_on_inRange_witness :
    normalize_signals (normalize_signals ⟨[wheatRow], true⟩) =
      normalize_signals ⟨[wheatRow], true⟩ :=
  normalize_idempotent_on_inRange ⟨[wheatRow], true⟩ (by
    intro r hr
    rw [List.mem_singleton] at hr
    subst hr
    refine ⟨?_, ?_, ?_, ?_⟩ <;> norm_num [wheatRow, inBounds])

/-- C2 counterexample: with an out-of-range driver pair (supply 120,
logistics 150) the first pass picks Logistics pre-clamp, the second pass
sees the clamped 100/100 tie and picks Supply, so `normalize` is not
idempotent as claimed. -/
theorem normalize_not_idempotent :
    normalize_signals (normalize_signals ⟨[riceRowWide], true⟩) ≠
      normalize_signals ⟨[riceRowWide], true⟩ := by
  intro hcontra
  have hmd : (normalize_signals (normalize_signals ⟨[riceRowWide], true⟩)).rows.map
        (fun r => r.main_driver) =
      (normalize_signals ⟨[riceRowWide], true⟩).rows.map
        (fun r => r.main_driver) := by rw [hcontra]
  rw [show (normalize_signals ⟨[riceRowWide], true⟩).rows.map
        (fun r => r.main_driver) = [some "Logistics"] from by
      norm_num [normalize_signals, riceRowWide, compute_main_driver, bestIdx,
        driverName, repairComposite, compute_composite, clipN]] at hmd
  rw [show (normalize_signals (normalize_signals ⟨[riceRowWide], true⟩)).rows.map
        (fun r => r.main_driver) = [some "Supply"] from by
      norm_num [normalize_signals, riceRowWide, compute_main_driver, bestIdx,
        driverName, repairComposite, compute_composite, clipN]] at hmd
  simp at hmd

/-- C3 (amended): `main_driver` is always recomputed (any supplied value is
discarded) as the first maximal driver in the priority order
Supply > Logistics > Climate > Geopolitical of the coerced pre-clamp
scores; when the input driver scores are within [0,100] this equals the
argmax of the normalized row's driver scores, as the claim states. -/
theorem main_driver_recomputed (hc : Bool) (r : Row) (h : driversInRange r) :
    (normalizeRow hc r).main_driver =
      specMainDriver (normalizeRow hc r).supply_risk_score
        (normalizeRow hc r).logistics_risk_score
        (normalizeRow hc r).climate_risk_score
        (normalizeRow hc r).geopolitical_risk_score ∧
    ∀ m : Option String,
      normalizeRow hc { r with main_driver := m } = normalizeRow hc r := by
  obtain ⟨h1, h2, h3, h4⟩ := h
  refine ⟨?_, fun m => rfl⟩
  rw [normalizeRow_main_driver, normalizeRow_supply, normalizeRow_logistics,
    normalizeRow_climate, normalizeRow_geopolitical, clipN_eq_self h1,
    clipN_eq_self h2, clipN_eq_self h3, clipN_eq_self h4]
  exact compute_main_driver_eq_spec r

/-- C3 witness: on a concrete in-range row the recomputed main driver is
the tie-break argmax of the normalized scores, and the input value is
ignored. -/
theorem main_driver_recomputed_witness :
    ((normalizeRow true wheatRow).main_driver =
      specMainDriver (normalizeRow true wheatRow).supply_risk_score
        (normalizeRow true wheatRow).logistics_risk_score
        (normalizeRow true wheatRow).climate_risk_score
        (normalizeRow true wheatRow).geopolitical_risk_score ∧
    ∀ m : Option String,
      normalizeRow true { wheatRow with main_driver := m } =
        normalizeRow true wheatRow) ∧
    (normalizeRow true wheatRow).main_driver = some "Logistics" :=
  ⟨main_driver_recomputed true wheatRow
    (by refine ⟨?_, ?_, ?_, ?_⟩ <;> norm_num [wheatRow, inBounds]),
   by norm_num [wheatRow, compute_main_driver, bestIdx, driverName]⟩

/-- C3 counterexample: after normalizing the out-of-range row, the stored
`main_driver` is "Logistics" (the pre-clamp argmax) but the argmax of the
normalized (clamped) driver scores with the priority tie-break is
"Supply", so the claim fails on the normalized row's own scores. -/
theorem main_driver_not_argmax_of_normalized :
    ¬ ((normalizeRow true riceRowWide).main_driver =
        specMainDriver (normalizeRow true riceRowWide).supply_risk_score
          (normalizeRow true riceRowWide).logistics_risk_score
          (normalizeRow true riceRowWide).climate_risk_score
          (normalizeRow true riceRowWide).geopolitical_risk_score) := by
  rw [show (normalizeRow true riceRowWide).main_driver = some "Logistics" from by
      norm_num [riceRowWide, compute_main_driver, bestIdx, driverName]]
  rw [show specMainDriver (normalizeRow true riceRowWide).supply_risk_score
        (normalizeRow true riceRowWide).logistics_risk_score
        (normalizeRow true riceRowWide).climate_risk_score
        (normalizeRow true riceRowWide).geopolitical_risk_score =
      some "Supply" from by
      norm_num [riceRowWide, specMainDriver, dominates, clipN]]
  simp

/-- C4: after normalization every present driver score lies in [0,100],
the present composite in [0,100], and the present confidence in [0,1];
normalization is a total function of the row batch, with non-numeric
cells carried as the missing marker instead of raising. -/
theorem normalize_signals_bounds (df : Frame) :
    ∀ r ∈ (normalize_signals df).rows,
      inBounds 0 100 r.supply_risk_score ∧
      inBounds 0 100 r.logistics_risk_score ∧
      inBounds 0 100 r.climate_risk_score ∧
      inBounds 0 100 r.geopolitical_risk_score ∧
      inBounds 0 100 r.composite_risk_score ∧
      inBounds 0 1 r.confidence := by
  intro r hr
  obtain ⟨r0, _, rfl⟩ := List.mem_map.1 hr
  refine ⟨?_, ?_, ?_, ?_, ?_, ?_⟩
  · rw [normalizeRow_supply]; exact inBounds_clipN _ _ (by norm_num) _
  · rw [normalizeRow_logistics]; exact inBounds_clipN _ _ (by norm_num) _
  · rw [normalizeRow_climate]; exact inBounds_clipN _ _ (by norm_num) _
  · rw [normalizeRow_geopolitical]; exact inBounds_clipN _ _ (by norm_num) _
  · rw [normalizeRow_composite]; exact inBounds_clipN _ _ (by norm_num) _
  · rw [normalizeRow_confidence]; exact inBounds_clipN _ _ (by norm_num) _

/-- C4 witness: the bounds hold on the normalized out-of-range row. -/
theorem normalize_signals_bounds_witness :
    inBounds 0 100 (normalizeRow true riceRowWide).supply_risk_score ∧
    inBounds 0 100 (normalizeRow true riceRowWide).logistics_risk_score ∧
    inBounds 0 100 (normalizeRow true riceRowWide).climate_risk_score ∧
    inBounds 0 100 (normalizeRow true riceRowWide).geopolitical_risk_score ∧
    inBounds 0 100 (normalizeRow true riceRowWide).composite_risk_score ∧
    inBounds 0 1 (normalizeRow true riceRowWide).confidence :=
  normalize_signals_bounds ⟨[riceRowWide], true⟩ (normalizeRow true riceRowWide)
    (by simp [normalize_signals])

/-- C1 (amended): for every row of the shocked commodity the simulation
adds 20 to logistics and 15 to geopolitical (each clamped to [0,100]) and
8 to `chg_7d`, leaves the other columns of the row untouched, and passes
the whole batch back through the Score Normalizer (which recomputes
`main_driver` and re-clamps); however the normalizer retains a present
numeric composite unchanged (clamped only), deriving it solely where
missing, so `composite_risk_score` is not recomputed from the shocked
driver scores. -/
theorem apply_shock_spec (df : Frame) (commodity : String) :
    apply_shock df commodity =
      normalize_signals ⟨df.rows.map (shockRow commodity), df.hasComposite⟩ ∧
    (∀ r : Row, r.commodity = commodity →
      (shockRow commodity r).logistics_risk_score =
          clipN 0 100 (addN r.logistics_risk_score 20) ∧
      (shockRow commodity r).geopolitical_risk_score =
          clipN 0 100 (addN r.geopolitical_risk_score 15) ∧
      (shockRow commodity r).chg_7d = addN r.chg_7d 8 ∧
      (shockRow commodity r).supply_risk_score = r.supply_risk_score ∧
      (shockRow commodity r).climate_risk_score = r.climate_risk_score ∧
      (shockRow commodity r).composite_risk_score = r.composite_risk_score) ∧
    (∀ r : Row, ∀ v : ℚ, r.composite_risk_score = some v →
      (normalizeRow true (shockRow commodity r)).composite_risk_score =
        clipN 0 100 (some v)) := by
  refine ⟨rfl, ?_, ?_⟩
  · intro r hr
    unfold shockRow
    rw [if_pos hr]
    exact ⟨rfl, rfl, rfl, rfl, rfl, rfl⟩
  · intro r v hv
    have hsc : (shockRow commodity r).composite_risk_score = some v := by
      unfold shockRow
      split_ifs <;> exact hv
    rw [normalizeRow_composite]
    simp only [repairComposite, hsc, eq_self_iff_true, if_true]

/-- C1 witness: on the Wheat scenario row the adds land as specified and
the composite is carried through the normalizer unchanged. -/
theorem apply_shock_spec_witness :
    ((shockRow "Wheat" wheatRow).logistics_risk_score =
        clipN 0 100 (addN wheatRow.logistics_risk_score 20) ∧
      (shockRow "Wheat" wheatRow).geopolitical_risk_score =
        clipN 0 100 (addN wheatRow.geopolitical_risk_score 15) ∧
      (shockRow "Wheat" wheatRow).chg_7d = addN wheatRow.chg_7d 8 ∧
      (shockRow "Wheat" wheatRow).supply_risk_score =
        wheatRow.supply_risk_score ∧
      (shockRow "Wheat" wheatRow).climate_risk_score =
        wheatRow.climate_risk_score ∧
      (shockRow "Wheat" wheatRow).composite_risk_score =
        wheatRow.composite_risk_score) ∧
    (normalizeRow true (shockRow "Wheat" wheatRow)).composite_risk_score =
      clipN 0 100 (some 27) :=
  ⟨(apply_shock_spec ⟨[wheatRow], true⟩ "Wheat").2.1 wheatRow rfl,
   (apply_shock_spec ⟨[wheatRow], true⟩ "Wheat").2.2 wheatRow 27 rfl⟩

/-- C1 counterexample: the Wheat row enters the shock with the consistent
composite 27 (= 0.25*60 + 0.20*60); after the shock its composite is
still 27, while recomputing it from the shocked driver scores per §4.1
gives 35, so the composite is not recomputed consistently. -/
theorem apply_shock_composite_stale :
    ((apply_shock ⟨[wheatRow], true⟩ "Wheat").rows.map
        fun r => r.composite_risk_score) = [some 27] ∧
    ((apply_shock ⟨[wheatRow], true⟩ "Wheat").rows.map
        fun r => clipN 0 100 (compute_composite r)) = [some 35] ∧
    (some (27 : ℚ) : Num) ≠ some 35 := by
  refine ⟨?_, ?_, by norm_num⟩ <;>
    norm_num [apply_shock, normalize_signals, shockRow, wheatRow,
      repairComposite, compute_composite, clipN, addN, compute_main_driver,
      bestIdx, driverName]

/-- C8 (amended): on a normalized batch whose underlying raw driver scores
were within [0,100] (or missing), the shock maps each row of the chosen
commodity through shock-plus-renormalization and leaves every other row
byte-identical; without that range condition a second normalization pass
may still rewrite `main_driver` of a non-matching row. -/
theorem apply_shock_nonmatching (df : Frame) (commodity : String)
    (h : ∀ r ∈ df.rows, driversInRange r) :
    (apply_shock (normalize_signals df) commodity).rows =
      (normalize_signals df).rows.map fun r =>
        if r.commodity = commodity then normalizeRow true (shockRow commodity r)
        else r := by
  unfold apply_shock normalize_signals
  simp only [List.map_map]
  apply List.map_congr_left
  intro a ha
  simp only [Function.comp_apply]
  by_cases hm : (normalizeRow df.hasComposite a).commodity = commodity
  · rw [if_pos hm]
  · rw [if_neg hm]
    have hs : shockRow commodity (normalizeRow df.hasComposite a) =
        normalizeRow df.hasComposite a := by
      unfold shockRow
      rw [if_neg hm]
    rw [hs, normalizeRow_idem _ _ (h a ha)]

/-- C8 witness: shocking Rice leaves the (non-matching) normalized Wheat
row untouched. -/
theorem apply_shock_nonmatching_witness :
    (apply_shock (normalize_signals ⟨[wheatRow], true⟩) "Rice").rows =
      (normalize_signals ⟨[wheatRow], true⟩).rows.map fun r =>
        if r.commodity = "Rice" then normalizeRow true (shockRow "Rice" r)
        else r :=
  apply_shock_nonmatching ⟨[wheatRow], true⟩ "Rice" (by
    intro r hr
    rw [List.mem_singleton] at hr
    subst hr
    refine ⟨?_, ?_, ?_, ?_⟩ <;> norm_num [wheatRow, inBounds])

/-- C8 counterexample: the normalized out-of-range Rice row does not match
the shocked commodity "Wheat", yet the shock changes its `main_driver`
from "Logistics" to "Supply", so it is not byte-identical to its input. -/
theorem apply_shock_changes_nonmatching :
    ((normalize_signals ⟨[riceRowWide], true⟩).rows.map
        fun r => r.commodity) = ["Rice"] ∧
    ("Rice" : String) ≠ "Wheat" ∧
    ((normalize_signals ⟨[riceRowWide], true⟩).rows.map
        fun r => r.main_driver) = [some "Logistics"] ∧
    ((apply_shock (normalize_signals ⟨[riceRowWide], true⟩) "Wheat").rows.map
        fun r => r.main_driver) = [some "Supply"] := by
  refine ⟨?_, by simp, ?_, ?_⟩ <;>
    norm_num [apply_shock, normalize_signals, shockRow, riceRowWide,
      repairComposite, compute_composite, clipN, addN, compute_main_driver,
      bestIdx, driverName, show ("Rice" : String) ≠ "Wheat" from by simp]

/-! ### C7: alert ranking -/

/-- Secondary key `chg_7d` descending as a proposition, missing values last. -/
def chgDescP (x y : Num) : Prop :=
  match x, y with
  | some v, some w => w ≤ v
  | some _, none => True
  | none, some _ => False
  | none, none => True

/-- The order in which `generate_alerts` emits alerts: composite strictly
descending, or equal composites (including both missing) with `chg_7d`
descending; missing values are placed after present ones. -/
def rankedBefore (A B : Alert) : Prop :=
  match A.row.composite_risk_score, B.row.composite_risk_score with
  | some v, some w => w < v ∨ (v = w ∧ chgDescP A.row.chg_7d B.row.chg_7d)
  | some _, none => True
  | none, some _ => False
  | none, none => chgDescP A.row.chg_7d B.row.chg_7d

theorem chgDescP_of_chgDesc {x y : Num} (h : chgDesc x y = true) :
    chgDescP x y := by
  rcases x with _ | v <;> rcases y with _ | w <;>
    simp_all [chgDesc, chgDescP]

theorem rankedBefore_of_alertRank {a b : Alert} (h : alertRank a b = true) :
    rankedBefore a b := by
  rcases ha : a.row.composite_risk_score with _ | v <;>
      rcases hb : b.row.composite_risk_score with _ | w <;>
    simp only [alertRank, rankedBefore, ha, hb] at h ⊢
  · exact chgDescP_of_chgDesc h
  · exact absurd h (by simp)
  · rcases lt_trichotomy w v with h1 | h1 | h1
    · exact Or.inl h1
    · rw [h1] at h
      simp only [lt_self_iff_false, if_false] at h
      exact Or.inr ⟨h1.symm, chgDescP_of_chgDesc h⟩
    · rw [if_neg (lt_asymm h1), if_pos h1] at h
      exact absurd h (by simp)

/-- C7 (amended): the emitted alerts are pairwise ordered by composite
score descending then `chg_7d` descending, with missing values placed
after present ones: for A before B, either both composites are present
and A's is strictly greater, or they are equal (or both missing) and A's
`chg_7d` is at least B's (or B's is missing), or B's composite is
missing while A's is present. -/
theorem generate_alerts_ranked (signals : List Row) :
    (generate_alerts signals).Pairwise rankedBefore :=
  (List.sorted_insertionSort (fun a b => alertRank a b = true)
      ((signals.map annotateRow).filter fun a => a.triggered)).imp
    fun h => rankedBefore_of_alertRank h

/-- Python `x > y` on possibly-missing floats (NaN comparisons false). -/
def pyGtN (x y : Num) : Bool :=
  match x, y with
  | some a, some b => decide (b < a)
  | _, _ => false

/-- Python `x >= y` on possibly-missing floats (NaN comparisons false). -/
def pyGeN (x y : Num) : Bool :=
  match x, y with
  | some a, some b => decide (b ≤ a)
  | _, _ => false

/-- The claim's pairwise ordering property, literally: A's composite is
strictly greater, or the composites are equal and A's change is at least
B's. -/
def claimRanked (A B : Alert) : Prop :=
  pyGtN A.row.composite_risk_score B.row.composite_risk_score = true ∨
    (A.row.composite_risk_score = B.row.composite_risk_score ∧
      pyGeN A.row.chg_7d B.row.chg_7d = true)

/-- C7 counterexample: a price-triggered row with missing composite sorts
last; for the adjacent pair the claim's property fails, because a missing
composite is neither less than, equal to, nor greater than a present
one. -/
theorem generate_alerts_claim_rank_false :
    generate_alerts [hotRow, nanRow] =
      [annotateRow hotRow, annotateRow nanRow] ∧
    ¬ claimRanked (annotateRow hotRow) (annotateRow nanRow) := by
  constructor
  · norm_num [generate_alerts, annotateRow, hotRow, nanRow, alertRank,
      chgDesc, pyge, pyabs, pylt, severity_from_composite]
  · norm_num [claimRanked, pyGtN, pyGeN, hotRow, nanRow]

/-! ### C9: store round trip -/

/-- C9: adding an action yields a fresh sequential id; the listing then
contains exactly one row with that id (carrying the given fields); a
subsequent add would get the next id; deleting the id restores the
original listing; deleting again is a no-op rather than an error; and
updating a non-existent id is a no-op. -/
theorem store_round_trip (s : Store)
    (t o d st n e c ca : String)
    (hwf : ∀ a ∈ s.actions, a.id < s.nextId) :
    (∀ a ∈ s.actions, a.id ≠ (add_action s t o d st n e c ca).2) ∧
    (list_actions (add_action s t o d st n e c ca).1).filter
        (fun a => decide (a.id = (add_action s t o d st n e c ca).2)) =
      [⟨s.nextId, t, o, d, st, n, e, c, ca⟩] ∧
    (add_action (add_action s t o d st n e c ca).1 t o d st n e c ca).2 =
      (add_action s t o d st n e c ca).2 + 1 ∧
    list_actions (delete_action (add_action s t o d st n e c ca).1
        (add_action s t o d st n e c ca).2) = list_actions s ∧
    delete_action (delete_action (add_action s t o d st n e c ca).1
        (add_action s t o d st n e c ca).2)
        (add_action s t o d st n e c ca).2 =
      delete_action (add_action s t o d st n e c ca).1
        (add_action s t o d st n e c ca).2 ∧
    (∀ i stat nts, (∀ a ∈ s.actions, a.id ≠ i) →
      update_action s i stat nts = s) := by
  have hid : (add_action s t o d st n e c ca).2 = s.nextId := rfl
  have hacts : (add_action s t o d st n e c ca).1.actions =
      s.actions ++ [⟨s.nextId, t, o, d, st, n, e, c, ca⟩] := rfl
  have hnotid : ∀ a ∈ s.actions, (a.id = s.nextId) = False :=
    fun a ha => eq_false (Nat.ne_of_lt (hwf a ha))
  have hfilter_nil :
      s.actions.filter (fun a => decide (a.id = s.nextId)) = [] := by
    rw [List.filter_eq_nil_iff]
    intro a ha
    simp [Nat.ne_of_lt (hwf a ha)]
  have hfilter_keep :
      ∀ l : List Action, (∀ a ∈ l, a.id < s.nextId) →
        l.filter (fun a => decide (¬a.id = s.nextId)) = l := by
    intro l hl
    rw [List.filter_eq_self]
    intro a ha
    simp [Nat.ne_of_lt (hl a ha)]
  have hdel : delete_action (add_action s t o d st n e c ca).1 s.nextId =
      ⟨s.actions, s.nextId + 1⟩ := by
    unfold delete_action
    rw [hacts, List.filter_append, hfilter_keep s.actions hwf]
    simp [add_action]
  refine ⟨?_, ?_, ?_, ?_, ?_, ?_⟩
  · intro a ha
    rw [hid]
    exact Nat.ne_of_lt (hwf a ha)
  · rw [hid]
    have hperm := (List.perm_insertionSort (fun a b => actionRank a b = true)
      (add_action s t o d st n e c ca).1.actions).filter
      (fun a => decide (a.id = s.nextId))
    rw [hacts, List.filter_append, hfilter_nil] at hperm
    simp only [List.nil_append] at hperm
    rw [show List.filter (fun a => decide (a.id = s.nextId))
          [(⟨s.nextId, t, o, d, st, n, e, c, ca⟩ : Action)] =
        [⟨s.nextId, t, o, d, st, n, e, c, ca⟩] from by simp] at hperm
    rw [List.perm_singleton] at hperm
    simpa [list_actions] using hperm
  · exact rfl
  · rw [hid, hdel]
    rfl
  · rw [hid, hdel]
    unfold delete_action
    simp only [Store.mk.injEq, and_true]
    exact hfilter_keep s.actions hwf
  · intro i stat nts hi
    unfold update_action
    have : s.actions.map (fun a =>
        if a.id = i then { a with status := stat, notes := nts } else a) =
        s.actions := by
      rw [List.map_congr_left fun a ha => if_neg (hi a ha)]
      simp
    rw [this]

/-- An initially empty store (SQLite `AUTOINCREMENT` starts at 1). -/
def exStore : Store := ⟨[], 1⟩

/-- C9 witness: the round trip on an empty store with a concrete action. -/
theorem store_round_trip_witness :
    (∀ a ∈ exStore.actions,
        a.id ≠ (add_action exStore "T" "O" "2026-03-01" "Open" "" "" "All" "ts").2) ∧
    (list_actions
          (add_action exStore "T" "O" "2026-03-01" "Open" "" "" "All" "ts").1).filter
        (fun a => decide (a.id =
          (add_action exStore "T" "O" "2026-03-01" "Open" "" "" "All" "ts").2)) =
      [⟨exStore.nextId, "T", "O", "2026-03-01", "Open", "", "", "All", "ts"⟩] ∧
    (add_action (add_action exStore "T" "O" "2026-03-01" "Open" "" "" "All" "ts").1
        "T" "O" "2026-03-01" "Open" "" "" "All" "ts").2 =
      (add_action exStore "T" "O" "2026-03-01" "Open" "" "" "All" "ts").2 + 1 ∧
    list_actions (delete_action
        (add_action exStore "T" "O" "2026-03-01" "Open" "" "" "All" "ts").1
        (add_action exStore "T" "O" "2026-03-01" "Open" "" "" "All" "ts").2) =
      list_actions exStore ∧
    delete_action (delete_action
        (add_action exStore "T" "O" "2026-03-01" "Open" "" "" "All" "ts").1
        (add_action exStore "T" "O" "2026-03-01" "Open" "" "" "All" "ts").2)
        (add_action exStore "T" "O" "2026-03-01" "Open" "" "" "All" "ts").2 =
      delete_action
        (add_action exStore "T" "O" "2026-03-01" "Open" "" "" "All" "ts").1
        (add_action exStore "T" "O" "2026-03-01" "Open" "" "" "All" "ts").2 ∧
    (∀ i stat nts, (∀ a ∈ exStore.actions, a.id ≠ i) →
      update_action exStore i stat nts = exStore) :=
  store_round_trip exStore "T" "O" "2026-03-01" "Open" "" "" "All" "ts"
    (by intro a ha; exact absurd ha (by simp [exStore]))

end SentinelFS
